import Mathlib

/-!
Verification of the libhdfspp logging facility
(`lib/common/logging.h` / `lib/common/logging.cc`).

The embedding models the filter state held by `LoggerInterface`, the
static `LogManager` switchboard, the `LogMessageObj` lazy message
builder with all of its `operator<<` overloads, the `StderrLogger`
formatting path, and the `CForwardingLogger` record copy/free pair.
C++ pointers that may be null are modelled as `Option`; `malloc` /
`strdup` outcomes are modelled by explicit success flags, and the
indeterminate content of memory `malloc` returns is an explicit
parameter.
-/

namespace HdfsLogging

/-- `enum LogLevel` from logging.h: kTrace=0, kDebug=1, kInfo=2,
kWarning=3, kError=4. -/
inductive LogLevel
  | kTrace
  | kDebug
  | kInfo
  | kWarning
  | kError
  deriving DecidableEq, Repr

/-- Numeric value of the `LogLevel` enumerator. -/
def LogLevel.toNat : LogLevel → Nat
  | .kTrace => 0
  | .kDebug => 1
  | .kInfo => 2
  | .kWarning => 3
  | .kError => 4

/-- `enum LogSourceComponent` from logging.h: kUnknown=1, kRPC=2,
kBlockReader=4, kFileHandle=8, kFileSystem=16 (each `1 << n`). -/
inductive LogSourceComponent
  | kUnknown
  | kRPC
  | kBlockReader
  | kFileHandle
  | kFileSystem
  deriving DecidableEq, Repr

/-- Numeric (bit-flag) value of the `LogSourceComponent` enumerator. -/
def LogSourceComponent.toNat : LogSourceComponent → Nat
  | .kUnknown => 1
  | .kRPC => 2
  | .kBlockReader => 4
  | .kFileHandle => 8
  | .kFileSystem => 16

/-- The non-virtual state of class `LoggerInterface`: the two private
`uint32_t` fields `component_mask_` and `level_threshold_`.  The
virtual `Write` is sink-specific and modelled per sink. -/
structure LoggerInterface where
  component_mask_ : Nat
  level_threshold_ : Nat
  deriving DecidableEq, Repr

/-- The default constructor
`LoggerInterface() : component_mask_(0xFFFFFFFF), level_threshold_(kTrace)`. -/
def LoggerInterface.init : LoggerInterface :=
  { component_mask_ := 0xFFFFFFFF, level_threshold_ := LogLevel.kTrace.toNat }

/-- `LoggerInterface::ShouldLog` (logging.cc:79-85):
returns false if `level < level_threshold_`, false if
`!(component & component_mask_)`, true otherwise. -/
def LoggerInterface.ShouldLog (f : LoggerInterface) (level : LogLevel)
    (component : LogSourceComponent) : Bool :=
  if level.toNat < f.level_threshold_ then false
  else if (component.toNat &&& f.component_mask_) == 0 then false
  else true

/-- `LoggerInterface::EnableLoggingForComponent`: `component_mask_ |= c`. -/
def LoggerInterface.EnableLoggingForComponent (f : LoggerInterface)
    (c : LogSourceComponent) : LoggerInterface :=
  { f with component_mask_ := f.component_mask_ ||| c.toNat }

/-- `LoggerInterface::DisableLoggingForComponent`: `component_mask_ &= ~c`,
with `~c` the 32-bit complement of the component bit. -/
def LoggerInterface.DisableLoggingForComponent (f : LoggerInterface)
    (c : LogSourceComponent) : LoggerInterface :=
  { f with component_mask_ := f.component_mask_ &&& (0xFFFFFFFF ^^^ c.toNat) }

/-- `LoggerInterface::SetLogLevel`: `level_threshold_ = level`. -/
def LoggerInterface.SetLogLevel (f : LoggerInterface) (level : LogLevel) :
    LoggerInterface :=
  { f with level_threshold_ := level.toNat }

/-- One call delivered to the active sink's virtual `Write`: the data the
message hands over (its level, component, and rendered text). -/
structure WriteRec where
  level : LogLevel
  component : LogSourceComponent
  text : String
  deriving DecidableEq, Repr

/-- The static state of class `LogManager`: `logger_impl_` (a possibly
null `unique_ptr<LoggerInterface>`, modelled by its filter state), plus
the observable trace of calls delegated to the active sink's `Write`. -/
structure ManagerState where
  logger_impl_ : Option LoggerInterface
  sinkWrites : List WriteRec
  deriving DecidableEq, Repr

/-- `LogManager::ShouldLog` (logging.cc:55-60): delegates to the
implementation's `ShouldLog` if one is installed, else returns false. -/
def LogManager.ShouldLog (m : ManagerState) (level : LogLevel)
    (source : LogSourceComponent) : Bool :=
  match m.logger_impl_ with
  | some f => f.ShouldLog level source
  | none => false

/-- `LogManager::EnableLogForComponent` (logging.cc:42-47): delegates if
an implementation is installed, else does nothing. -/
def LogManager.EnableLogForComponent (m : ManagerState)
    (c : LogSourceComponent) : ManagerState :=
  match m.logger_impl_ with
  | some f => { m with logger_impl_ := some (f.EnableLoggingForComponent c) }
  | none => m

/-- `LogManager::DisableLogForComponent` (logging.cc:35-40). -/
def LogManager.DisableLogForComponent (m : ManagerState)
    (c : LogSourceComponent) : ManagerState :=
  match m.logger_impl_ with
  | some f => { m with logger_impl_ := some (f.DisableLoggingForComponent c) }
  | none => m

/-- `LogManager::SetLogLevel` (logging.cc:49-53). -/
def LogManager.SetLogLevel (m : ManagerState) (level : LogLevel) :
    ManagerState :=
  match m.logger_impl_ with
  | some f => { m with logger_impl_ := some (f.SetLogLevel level) }
  | none => m

/-- A non-null `const std::string*` argument: the pointer's address and
the string it points to.  Needed because streaming such a pointer into
an `ostream` prints the address, not the pointed-to characters. -/
structure StrPtr where
  addr : Nat
  val : String
  deriving DecidableEq, Repr

/-- Rendering of a pointer by `std::ostream& operator<<(const void*)`:
the address in hexadecimal with a `0x` prefix (the usual `%p` form). -/
def ptrHexString (addr : Nat) : String :=
  "0x" ++ String.mk (Nat.toDigits 16 addr)

/-- The state of class `LogMessageObj` (logging.h:145-187): the cached
`const bool worth_reporting_`, the level, the component, and the
accumulated text of `msg_buffer_` (a `std::stringstream`). -/
structure LogMessageObj where
  worth_reporting_ : Bool
  level_ : LogLevel
  component_ : LogSourceComponent
  msg_buffer_ : String
  deriving DecidableEq, Repr

/-- The `LogMessageObj(level, component)` constructor (logging.h:148-153):
`worth_reporting_` is initialized by the single call
`LogManager::ShouldLog(l, component)`, the buffer starts empty. -/
def LogMessageObj.construct (mgr : ManagerState) (l : LogLevel)
    (component : LogSourceComponent) : LogMessageObj :=
  { worth_reporting_ := LogManager.ShouldLog mgr l component
    level_ := l
    component_ := component
    msg_buffer_ := "" }

/-- `LogMessageObj::MsgString` (logging.cc:260-264): the buffer's
contents if worth reporting, otherwise the empty string. -/
def LogMessageObj.MsgString (m : LogMessageObj) : String :=
  if m.worth_reporting_ then m.msg_buffer_ else ""

/-- `LogManager::Write` (logging.cc:62-66): delegates the message to the
installed implementation's virtual `Write`, recorded here as one entry
appended to the sink-call trace; no-op when no sink is installed. -/
def LogManager.Write (m : ManagerState) (msg : LogMessageObj) : ManagerState :=
  match m.logger_impl_ with
  | some _ =>
    { m with sinkWrites :=
        m.sinkWrites ++ [⟨msg.level_, msg.component_, msg.MsgString⟩] }
  | none => m

/-- `LogMessageObj::~LogMessageObj` (logging.cc:195-198): calls
`LogManager::Write(*this)` iff `worth_reporting_`. -/
def LogMessageObj.destructor (msg : LogMessageObj) (mgr : ManagerState) :
    ManagerState :=
  if msg.worth_reporting_ then LogManager.Write mgr msg else mgr

/-- `operator<<(const std::string*)` (logging.cc:200-204): when the
pointer is non-null and the message is worth reporting, the code streams
the POINTER itself (`msg_buffer_ << str`), so the address — not the
pointed-to text — is appended. -/
def LogMessageObj.appendStdStringPtr (m : LogMessageObj)
    (str : Option StrPtr) : LogMessageObj :=
  match str with
  | some p =>
    if m.worth_reporting_ then
      { m with msg_buffer_ := m.msg_buffer_ ++ ptrHexString p.addr }
    else m
  | none => m

/-- `operator<<(const std::string&)` (logging.cc:206-210): appends the
string's characters when worth reporting. -/
def LogMessageObj.appendStdString (m : LogMessageObj) (str : String) :
    LogMessageObj :=
  if m.worth_reporting_ then { m with msg_buffer_ := m.msg_buffer_ ++ str }
  else m

/-- `operator<<(const char*)` (logging.cc:212-217): appends the
characters when the pointer is non-null and the message is worth
reporting. -/
def LogMessageObj.appendCharPtr (m : LogMessageObj) (str : Option String) :
    LogMessageObj :=
  match str with
  | some s =>
    if m.worth_reporting_ then { m with msg_buffer_ := m.msg_buffer_ ++ s }
    else m
  | none => m

/-- `operator<<(bool)` (logging.cc:219-227): appends "true" or "false". -/
def LogMessageObj.appendBool (m : LogMessageObj) (val : Bool) :
    LogMessageObj :=
  if m.worth_reporting_ then
    { m with msg_buffer_ := m.msg_buffer_ ++ (if val then "true" else "false") }
  else m

/-- `operator<<(int32_t)` (logging.cc:229-233): decimal rendering. -/
def LogMessageObj.appendInt32 (m : LogMessageObj) (val : Int) :
    LogMessageObj :=
  if m.worth_reporting_ then { m with msg_buffer_ := m.msg_buffer_ ++ toString val }
  else m

/-- `operator<<(uint32_t)` (logging.cc:235-239). -/
def LogMessageObj.appendUInt32 (m : LogMessageObj) (val : Nat) :
    LogMessageObj :=
  if m.worth_reporting_ then { m with msg_buffer_ := m.msg_buffer_ ++ toString val }
  else m

/-- `operator<<(int64_t)` (logging.cc:241-245). -/
def LogMessageObj.appendInt64 (m : LogMessageObj) (val : Int) :
    LogMessageObj :=
  if m.worth_reporting_ then { m with msg_buffer_ := m.msg_buffer_ ++ toString val }
  else m

/-- `operator<<(uint64_t)` (logging.cc:247-251). -/
def LogMessageObj.appendUInt64 (m : LogMessageObj) (val : Nat) :
    LogMessageObj :=
  if m.worth_reporting_ then { m with msg_buffer_ := m.msg_buffer_ ++ toString val }
  else m

/-- `operator<<(void*)` (logging.cc:254-258): the address in hex. -/
def LogMessageObj.appendVoidPtr (m : LogMessageObj) (ptr : Nat) :
    LogMessageObj :=
  if m.worth_reporting_ then
    { m with msg_buffer_ := m.msg_buffer_ ++ ptrHexString ptr }
  else m

/-- One argument to one of the `operator<<` overloads of
`LogMessageObj`, covering every overload the class declares. -/
inductive AppendItem
  | stdString (s : String)
  | charPtr (p : Option String)
  | stdStringPtr (p : Option StrPtr)
  | boolVal (b : Bool)
  | i32 (v : Int)
  | u32 (v : Nat)
  | i64 (v : Int)
  | u64 (v : Nat)
  | voidPtr (a : Nat)
  deriving Repr

/-- Apply one `operator<<` call to the message. -/
def applyAppend (m : LogMessageObj) : AppendItem → LogMessageObj
  | .stdString s => m.appendStdString s
  | .charPtr p => m.appendCharPtr p
  | .stdStringPtr p => m.appendStdStringPtr p
  | .boolVal b => m.appendBool b
  | .i32 v => m.appendInt32 v
  | .u32 v => m.appendUInt32 v
  | .i64 v => m.appendInt64 v
  | .u64 v => m.appendUInt64 v
  | .voidPtr a => m.appendVoidPtr a

/-- Apply a whole sequence of `operator<<` calls, left to right. -/
def applyAppends (m : LogMessageObj) (items : List AppendItem) :
    LogMessageObj :=
  items.foldl applyAppend m

/-- `kLevelStrings` (logging.cc:266-272). -/
def kLevelStrings : List String :=
  ["[TRACE ]", "[DEBUG ]", "[INFO  ]", "[WARN  ]", "[ERROR ]"]

/-- `LogMessageObj::level_string` (logging.cc:274-276):
`kLevelStrings[level_]`. -/
def LogMessageObj.level_string (m : LogMessageObj) : String :=
  kLevelStrings.getD m.level_.toNat ""

/-- `kComponentStrings` (logging.cc:278-284). -/
def kComponentStrings : List String :=
  ["[Unknown     ]", "[RPC         ]", "[BlockReader ]", "[FileHandle  ]",
   "[FileSystem  ]"]

/-- `LogMessageObj::component_string` (logging.cc:286-294): a switch on
`component_`, defaulting to the Unknown string. -/
def LogMessageObj.component_string (m : LogMessageObj) : String :=
  match m.component_ with
  | .kRPC => kComponentStrings.getD 1 ""
  | .kBlockReader => kComponentStrings.getD 2 ""
  | .kFileHandle => kComponentStrings.getD 3 ""
  | .kFileSystem => kComponentStrings.getD 4 ""
  | .kUnknown => kComponentStrings.getD 0 ""

/-- The state of class `StderrLogger` (logging.h:87-101): the inherited
filter plus the four display toggles, in declaration order. -/
structure StderrLogger where
  base : LoggerInterface
  show_timestamp_ : Bool
  show_level_ : Bool
  show_thread_ : Bool
  show_component_ : Bool
  deriving DecidableEq, Repr

/-- `StderrLogger::Write` (logging.cc:103-130), as the line printed to
stderr (`none` when nothing is printed).  The timestamp text and the
thread id text are environment inputs, passed as parameters.  Note the
source guards the `[Thread id = ...]` block with `show_component_`
(logging.cc:125-127); the member `show_thread_` is never read. -/
def StderrLogger.Write (s : StderrLogger) (msg : LogMessageObj)
    (timestr : String) (threadIdStr : String) : Option String :=
  if !msg.worth_reporting_ then none
  else
    some ((if s.show_level_ then msg.level_string else "") ++
          (if s.show_component_ then msg.component_string else "") ++
          (if s.show_timestamp_ then "[" ++ timestr ++ "]" else "") ++
          (if s.show_component_ then "[Thread id = " ++ threadIdStr ++ "]"
           else "") ++
          "    " ++ msg.MsgString)

/-- Modelled from the spec: `struct LogData` from `hdfspp/hdfs_ext.h`,
which is not among the provided sources.  The spec describes it as "a
plain data record" with fields level (integer), component (integer) and
message (text); `msg` is a C string pointer, so `none` models NULL. -/
structure LogData where
  level : Nat
  component : Nat
  msg : Option String
  deriving DecidableEq, Repr

/-- `CForwardingLogger::CopyLogData` (logging.cc:168-181).
`mallocOk` models whether `malloc(sizeof(LogData))` succeeds, and
`strdupOk` whether `strdup` succeeds; `junk` is the indeterminate
content the `msg` field of the malloc'd struct starts with, which the
code leaves in place when `orig->msg` is NULL.  When `strdup` fails its
NULL result is stored unchecked. -/
def CForwardingLogger.CopyLogData (mallocOk strdupOk : Bool)
    (junk : Option String) (orig : Option LogData) : Option LogData :=
  match orig with
  | none => none
  | some o =>
    if mallocOk then
      some { level := o.level
             component := o.component
             msg := match o.msg with
                    | some s => if strdupOk then some s else none
                    | none => junk }
    else none

/-- A heap of allocated `LogData` records, addressed by `Nat`. -/
abbrev Heap := List (Nat × LogData)

/-- A never-allocated address: one past the largest key in the heap. -/
def Heap.fresh (h : Heap) : Nat :=
  h.foldr (fun e acc => max e.1 acc) 0 + 1

/-- `CForwardingLogger::CopyLogData` as a heap operation: the copy is
malloc'd at a fresh address.  A null input yields null; looking up an
address that is not allocated is undefined behaviour in C, modelled
here as returning null without touching the heap (the theorems only
invoke it on allocated addresses). -/
def CForwardingLogger.CopyLogDataH (mallocOk strdupOk : Bool)
    (junk : Option String) (h : Heap) (orig : Option Nat) :
    Heap × Option Nat :=
  match orig with
  | none => (h, none)
  | some a =>
    match List.lookup a h with
    | none => (h, none)
    | some o =>
      if mallocOk then
        ((Heap.fresh h,
          { level := o.level
            component := o.component
            msg := match o.msg with
                   | some s => if strdupOk then some s else none
                   | none => junk }) :: h, some (Heap.fresh h))
      else (h, none)

/-- `CForwardingLogger::FreeLogData` (logging.cc:183-192) as a heap
operation: a null pointer is a no-op; otherwise the record (text
included) is zeroed and released, i.e. its address is deallocated. -/
def CForwardingLogger.FreeLogDataH (h : Heap) (data : Option Nat) : Heap :=
  match data with
  | none => h
  | some a => h.filter (fun e => e.1 != a)

/-! Helper lemmas. -/

/-- Every `operator<<` overload preserves `worth_reporting_`, `level_`
and `component_` (each only touches `msg_buffer_`, or nothing). -/
theorem applyAppend_preserves_fields (m : LogMessageObj) (i : AppendItem) :
    (applyAppend m i).worth_reporting_ = m.worth_reporting_ ∧
    (applyAppend m i).level_ = m.level_ ∧
    (applyAppend m i).component_ = m.component_ := by
  cases i with
  | stdString s =>
    simp only [applyAppend, LogMessageObj.appendStdString]
    split <;> simp
  | charPtr p =>
    cases p with
    | none => simp [applyAppend, LogMessageObj.appendCharPtr]
    | some s =>
      simp only [applyAppend, LogMessageObj.appendCharPtr]
      split <;> simp
  | stdStringPtr p =>
    cases p with
    | none => simp [applyAppend, LogMessageObj.appendStdStringPtr]
    | some sp =>
      simp only [applyAppend, LogMessageObj.appendStdStringPtr]
      split <;> simp
  | boolVal b =>
    simp only [applyAppend, LogMessageObj.appendBool]
    split <;> simp
  | i32 v =>
    simp only [applyAppend, LogMessageObj.appendInt32]
    split <;> simp
  | u32 v =>
    simp only [applyAppend, LogMessageObj.appendUInt32]
    split <;> simp
  | i64 v =>
    simp only [applyAppend, LogMessageObj.appendInt64]
    split <;> simp
  | u64 v =>
    simp only [applyAppend, LogMessageObj.appendUInt64]
    split <;> simp
  | voidPtr a =>
    simp only [applyAppend, LogMessageObj.appendVoidPtr]
    split <;> simp

/-- A message that is not worth reporting is left untouched by every
`operator<<` overload. -/
theorem applyAppend_of_not_worth (m : LogMessageObj) (i : AppendItem)
    (h : m.worth_reporting_ = false) : applyAppend m i = m := by
  cases i with
  | stdString s => simp [applyAppend, LogMessageObj.appendStdString, h]
  | charPtr p =>
    cases p <;> simp [applyAppend, LogMessageObj.appendCharPtr, h]
  | stdStringPtr p =>
    cases p <;> simp [applyAppend, LogMessageObj.appendStdStringPtr, h]
  | boolVal b => simp [applyAppend, LogMessageObj.appendBool, h]
  | i32 v => simp [applyAppend, LogMessageObj.appendInt32, h]
  | u32 v => simp [applyAppend, LogMessageObj.appendUInt32, h]
  | i64 v => simp [applyAppend, LogMessageObj.appendInt64, h]
  | u64 v => simp [applyAppend, LogMessageObj.appendUInt64, h]
  | voidPtr a => simp [applyAppend, LogMessageObj.appendVoidPtr, h]

/-- A message that is not worth reporting is left untouched by any
sequence of `operator<<` calls. -/
theorem applyAppends_of_not_worth (m : LogMessageObj)
    (items : List AppendItem) (h : m.worth_reporting_ = false) :
    applyAppends m items = m := by
  induction items with
  | nil => rfl
  | cons i rest ih =>
    show applyAppends (applyAppend m i) rest = m
    rw [applyAppend_of_not_worth m i h]
    exact ih

/-- Any sequence of `operator<<` calls preserves `worth_reporting_`,
`level_` and `component_`. -/
theorem applyAppends_preserves_fields (m : LogMessageObj)
    (items : List AppendItem) :
    (applyAppends m items).worth_reporting_ = m.worth_reporting_ ∧
    (applyAppends m items).level_ = m.level_ ∧
    (applyAppends m items).component_ = m.component_ := by
  induction items generalizing m with
  | nil => exact ⟨rfl, rfl, rfl⟩
  | cons i rest ih =>
    have h1 := applyAppend_preserves_fields m i
    have h2 := ih (applyAppend m i)
    exact ⟨h2.1.trans h1.1, h2.2.1.trans h1.2.1, h2.2.2.trans h1.2.2⟩

/-! The claims. -/

/-- C1: for every LogLevel, every LogSourceComponent and every
(threshold, mask) filter state, `LoggerInterface::ShouldLog(level,
component)` returns true iff `level >= threshold` and
`(component & mask) != 0`; equivalently, a message built and destroyed
under a manager holding such a sink is delivered to the sink exactly
under that condition. -/
theorem c1_should_log_iff_delivery :
    ∀ (f : LoggerInterface) (l : LogLevel) (c : LogSourceComponent),
    (LoggerInterface.ShouldLog f l c = true ↔
       (f.level_threshold_ ≤ l.toNat ∧
        (c.toNat &&& f.component_mask_) ≠ 0)) ∧
    (∀ ws : List WriteRec,
      (LogMessageObj.destructor
          (LogMessageObj.construct ⟨some f, ws⟩ l c) ⟨some f, ws⟩).sinkWrites
        = ws ++ (if LoggerInterface.ShouldLog f l c
                 then [⟨l, c, ""⟩] else [])) := by
  intro f l c
  constructor
  · simp only [LoggerInterface.ShouldLog]
    split
    case isTrue h1 =>
      simp only [Bool.false_eq_true, false_iff, not_and]
      intro hle
      omega
    case isFalse h1 =>
      split
      case isTrue h2 =>
        simp only [beq_iff_eq] at h2
        simp [h2]
      case isFalse h2 =>
        simp only [beq_iff_eq] at h2
        simp [h2]
        omega
  · intro ws
    by_cases h : LoggerInterface.ShouldLog f l c
    · simp [LogMessageObj.destructor, LogMessageObj.construct,
        LogManager.ShouldLog, LogManager.Write, LogMessageObj.MsgString, h]
    · simp [LogMessageObj.destructor, LogMessageObj.construct,
        LogManager.ShouldLog, LogManager.Write, LogMessageObj.MsgString, h]

/-- C2: for every message whose cached `worth_reporting_` flag is false,
any sequence of `operator<<` calls (text, bool, integers, pointers)
leaves the whole message — in particular its text buffer — unchanged,
`MsgString()` returns the empty string, and the destructor makes no call
to `LogManager::Write`, leaving the manager (and hence the sink trace)
untouched. -/
theorem c2_suppressed_message_inert :
    ∀ (l : LogLevel) (c : LogSourceComponent) (buf : String)
      (items : List AppendItem) (mgr : ManagerState),
    applyAppends ⟨false, l, c, buf⟩ items = ⟨false, l, c, buf⟩ ∧
    (applyAppends ⟨false, l, c, buf⟩ items).msg_buffer_ = buf ∧
    (applyAppends ⟨false, l, c, buf⟩ items).MsgString = "" ∧
    LogMessageObj.destructor (applyAppends ⟨false, l, c, buf⟩ items) mgr
      = mgr := by
  intro l c buf items mgr
  have h0 : (⟨false, l, c, buf⟩ : LogMessageObj).worth_reporting_ = false := rfl
  have h := applyAppends_of_not_worth ⟨false, l, c, buf⟩ items h0
  refine ⟨h, ?_, ?_, ?_⟩
  · rw [h]
  · rw [h]; rfl
  · rw [h]; rfl

/-- C3: the acceptance decision of a message is the value of
`LogManager::ShouldLog` at construction time, cached in the const field
`worth_reporting_` and unchanged by any appends; destruction under ANY
later manager state dispatches iff that cached value is true, and one
dispatch hands exactly one (text, level, component) record to the
installed sink (none when no sink is installed). -/
theorem c3_cached_decision_single_dispatch :
    ∀ (mgr0 mgr1 : ManagerState) (l : LogLevel) (c : LogSourceComponent)
      (items : List AppendItem),
    (applyAppends (LogMessageObj.construct mgr0 l c) items).worth_reporting_
      = LogManager.ShouldLog mgr0 l c ∧
    (applyAppends (LogMessageObj.construct mgr0 l c) items).level_ = l ∧
    (applyAppends (LogMessageObj.construct mgr0 l c) items).component_ = c ∧
    LogMessageObj.destructor
        (applyAppends (LogMessageObj.construct mgr0 l c) items) mgr1
      = (if LogManager.ShouldLog mgr0 l c
         then LogManager.Write mgr1
                (applyAppends (LogMessageObj.construct mgr0 l c) items)
         else mgr1) ∧
    (∀ msg : LogMessageObj, (LogManager.Write mgr1 msg).sinkWrites
      = mgr1.sinkWrites ++
          (if mgr1.logger_impl_.isSome
           then [⟨msg.level_, msg.component_, msg.MsgString⟩] else [])) := by
  intro mgr0 mgr1 l c items
  have hp := applyAppends_preserves_fields (LogMessageObj.construct mgr0 l c)
    items
  have hw : (applyAppends (LogMessageObj.construct mgr0 l c) items).worth_reporting_
      = LogManager.ShouldLog mgr0 l c := hp.1
  refine ⟨hw, hp.2.1, hp.2.2, ?_, ?_⟩
  · rw [LogMessageObj.destructor, hw]
  · intro msg
    cases hm : mgr1.logger_impl_ with
    | none => simp [LogManager.Write, hm]
    | some f => simp [LogManager.Write, hm]

/-- C4: with no sink installed (`logger_impl_` null),
`LogManager::ShouldLog` returns false for every (level, component) and
`Write`, `EnableLogForComponent`, `DisableLogForComponent` and
`SetLogLevel` leave the manager state exactly as it was. -/
theorem c4_no_sink_silent_noops :
    ∀ (ws : List WriteRec) (l lvl : LogLevel) (c : LogSourceComponent)
      (msg : LogMessageObj),
    LogManager.ShouldLog ⟨none, ws⟩ l c = false ∧
    LogManager.Write ⟨none, ws⟩ msg = ⟨none, ws⟩ ∧
    LogManager.EnableLogForComponent ⟨none, ws⟩ c = ⟨none, ws⟩ ∧
    LogManager.DisableLogForComponent ⟨none, ws⟩ c = ⟨none, ws⟩ ∧
    LogManager.SetLogLevel ⟨none, ws⟩ lvl = ⟨none, ws⟩ := by
  intro ws l lvl c msg
  exact ⟨rfl, rfl, rfl, rfl, rfl⟩

/-- C9: a freshly constructed `LoggerInterface` has
`component_mask_ = 0xFFFFFFFF` and `level_threshold_ = kTrace`, and its
`ShouldLog` returns true for every enumerated LogLevel and every
enumerated LogSourceComponent. -/
theorem c9_fresh_sink_accepts_everything :
    LoggerInterface.init.component_mask_ = 0xFFFFFFFF ∧
    LoggerInterface.init.level_threshold_ = LogLevel.kTrace.toNat ∧
    ∀ (l : LogLevel) (c : LogSourceComponent),
      LoggerInterface.ShouldLog LoggerInterface.init l c = true := by
  refine ⟨rfl, rfl, ?_⟩
  intro l c
  cases l <;> cases c <;> decide

/-- C10: appending a null pointer through `operator<<(const char*)` or
`operator<<(const std::string*)` is a no-op for every message, worth
reporting or not: the very same message value is returned (so the buffer
is unchanged), and the null pointer is never dereferenced — both
overloads return before touching it. -/
theorem c10_null_pointer_append_noop :
    ∀ (m : LogMessageObj),
      m.appendCharPtr none = m ∧ m.appendStdStringPtr none = m := by
  intro m
  exact ⟨rfl, rfl⟩

/-- C5 (code bug): `operator<<(const std::string*)` streams the pointer
itself, so an accepted message given a pointer to "hello" at address
4096 ends up holding the rendering of the address, "0x1000", not
"hello" — although the `const char*` and `const std::string&` overloads
do deliver the text byte-for-byte, and the header documents all three
as print-as-is. -/
theorem c5_string_ptr_streams_address :
    ((LogMessageObj.construct ⟨some LoggerInterface.init, []⟩
        .kError .kRPC).appendStdStringPtr (some ⟨4096, "hello"⟩)).msg_buffer_
      = "0x1000" ∧
    ((LogMessageObj.construct ⟨some LoggerInterface.init, []⟩
        .kError .kRPC).appendStdStringPtr (some ⟨4096, "hello"⟩)).msg_buffer_
      ≠ "hello" ∧
    ((LogMessageObj.construct ⟨some LoggerInterface.init, []⟩
        .kError .kRPC).appendStdString "hello").msg_buffer_ = "hello" ∧
    ((LogMessageObj.construct ⟨some LoggerInterface.init, []⟩
        .kError .kRPC).appendCharPtr (some "hello")).msg_buffer_
      = "hello" := by
  refine ⟨by decide, by decide, by decide, by decide⟩

/-- C8 (code bug): in `StderrLogger::Write` the `[Thread id = ...]`
block is guarded by `show_component_` instead of `show_thread_`: the
output is entirely independent of `show_thread_`, a sink with the
thread toggle on but the component toggle off prints no thread field,
and a sink with the component toggle on but the thread toggle off
prints both the component tag and the thread field. -/
theorem c8_thread_field_follows_component_toggle :
    (∀ (s : StderrLogger) (b : Bool) (msg : LogMessageObj)
       (timestr threadIdStr : String),
      StderrLogger.Write { s with show_thread_ := b } msg timestr threadIdStr
        = StderrLogger.Write s msg timestr threadIdStr) ∧
    StderrLogger.Write ⟨LoggerInterface.init, false, false, true, false⟩
        ⟨true, .kError, .kRPC, "hello"⟩ "T" "42" = some "    hello" ∧
    StderrLogger.Write ⟨LoggerInterface.init, false, false, false, true⟩
        ⟨true, .kError, .kRPC, "hello"⟩ "T" "42"
      = some "[RPC         ][Thread id = 42]    hello" := by
  refine ⟨?_, by decide, by decide⟩
  intro s b msg timestr threadIdStr
  rfl

/-- Every key allocated in a heap is below `Heap.fresh`. -/
theorem lt_fresh_of_mem (h : Heap) (e : Nat × LogData) (he : e ∈ h) :
    e.1 < Heap.fresh h := by
  unfold Heap.fresh
  induction h with
  | nil => cases he
  | cons x xs ih =>
    rcases List.mem_cons.mp he with rfl | hmem
    · have := le_max_left e.1
        (List.foldr (fun e acc => max e.1 acc) 0 xs)
      simp only [List.foldr]
      omega
    · have h1 := ih hmem
      have h2 := le_max_right x.1
        (List.foldr (fun e acc => max e.1 acc) 0 xs)
      simp only [List.foldr]
      omega

/-- Filtering out a key no entry carries leaves the heap unchanged. -/
theorem filter_ne_key_eq (h : Heap) (b : Nat) (hb : ∀ e ∈ h, e.1 ≠ b) :
    h.filter (fun e => e.1 != b) = h := by
  apply List.filter_eq_self.mpr
  intro e he
  simp only [bne_iff_ne, ne_eq, decide_eq_true_eq]
  exact hb e he

/-- Freeing a record just allocated at the fresh address removes exactly
that record: the rest of the heap is restored unchanged. -/
theorem free_fresh_cons (h : Heap) (r : LogData) :
    CForwardingLogger.FreeLogDataH ((Heap.fresh h, r) :: h)
      (some (Heap.fresh h)) = h := by
  simp only [CForwardingLogger.FreeLogDataH, List.filter_cons,
    bne_self_eq_false, Bool.false_eq_true, if_false]
  exact filter_ne_key_eq _ _
    (fun e he => Nat.ne_of_lt (lt_fresh_of_mem _ e he))

/-- C6 counterexample: when the struct allocation (`malloc`) succeeds but
the text duplication (`strdup`) fails — an allocation failure —
`CForwardingLogger::CopyLogData` does NOT return null: it returns a
record whose text is null instead of a copy of the original text. -/
theorem c6_counterexample :
    CForwardingLogger.CopyLogData true false none (some ⟨4, 2, some "x"⟩)
      = some ⟨4, 2, none⟩ ∧
    CForwardingLogger.CopyLogData true false none (some ⟨4, 2, some "x"⟩)
      ≠ none := by
  refine ⟨by decide, by decide⟩

/-- C6 amended: `CopyLogData` returns null for a null input and when the
struct allocation fails; when the struct allocation succeeds it always
returns a record whose level and component equal the originals; the
text is a deep copy of the original text when that text is non-null and
its duplication succeeds, is null when the duplication fails, and is
left as the indeterminate malloc content when the original text is
null. -/
theorem c6_amended_copy_semantics :
    ∀ (mallocOk strdupOk : Bool) (junk : Option String) (lvl comp : Nat)
      (s : String) (o : LogData),
    CForwardingLogger.CopyLogData false strdupOk junk (some o) = none ∧
    CForwardingLogger.CopyLogData mallocOk strdupOk junk none = none ∧
    CForwardingLogger.CopyLogData true true junk (some ⟨lvl, comp, some s⟩)
      = some ⟨lvl, comp, some s⟩ ∧
    CForwardingLogger.CopyLogData true false junk (some ⟨lvl, comp, some s⟩)
      = some ⟨lvl, comp, none⟩ ∧
    CForwardingLogger.CopyLogData true strdupOk junk (some ⟨lvl, comp, none⟩)
      = some ⟨lvl, comp, junk⟩ := by
  intro mallocOk strdupOk junk lvl comp s o
  refine ⟨?_, rfl, rfl, rfl, rfl⟩
  simp [CForwardingLogger.CopyLogData]

/-- C7 counterexample: under an allocation failure of `strdup`, the copy
`CopyLogData` returns has a null text while the original text is
"abc" — the claim "the copy's text equals the original's text", stated
for every record and every execution, fails here. -/
theorem c7_counterexample :
    CForwardingLogger.CopyLogData true false none (some ⟨3, 1, some "abc"⟩)
      = some ⟨3, 1, none⟩ ∧
    (LogData.mk 3 1 none).msg ≠ (LogData.mk 3 1 (some "abc")).msg := by
  refine ⟨by decide, by decide⟩

/-- C7 amended: for every heap record whose text is non-null, assuming
both allocations succeed, `CopyLogData` allocates the copy at a fresh
address, the copy (level, component and deep-copied text) equals the
original, freeing the copy with `FreeLogData` restores the heap exactly
— so the original record is untouched — and freeing a null pointer is a
no-op. -/
theorem c7_amended_copy_free :
    ∀ (t : Heap) (a lvl comp : Nat) (s : String) (junk : Option String),
    (CForwardingLogger.CopyLogDataH true true junk
        ((a, ⟨lvl, comp, some s⟩) :: t) (some a)).2
      = some (Heap.fresh ((a, ⟨lvl, comp, some s⟩) :: t)) ∧
    List.lookup (Heap.fresh ((a, ⟨lvl, comp, some s⟩) :: t))
        (CForwardingLogger.CopyLogDataH true true junk
          ((a, ⟨lvl, comp, some s⟩) :: t) (some a)).1
      = some ⟨lvl, comp, some s⟩ ∧
    CForwardingLogger.FreeLogDataH
        (CForwardingLogger.CopyLogDataH true true junk
          ((a, ⟨lvl, comp, some s⟩) :: t) (some a)).1
        (CForwardingLogger.CopyLogDataH true true junk
          ((a, ⟨lvl, comp, some s⟩) :: t) (some a)).2
      = (a, ⟨lvl, comp, some s⟩) :: t ∧
    CForwardingLogger.FreeLogDataH ((a, ⟨lvl, comp, some s⟩) :: t) none
      = (a, ⟨lvl, comp, some s⟩) :: t := by
  intro t a lvl comp s junk
  have hcopy : CForwardingLogger.CopyLogDataH true true junk
      ((a, ⟨lvl, comp, some s⟩) :: t) (some a)
      = ((Heap.fresh ((a, ⟨lvl, comp, some s⟩) :: t),
          ⟨lvl, comp, some s⟩) :: (a, ⟨lvl, comp, some s⟩) :: t,
         some (Heap.fresh ((a, ⟨lvl, comp, some s⟩) :: t))) := by
    simp [CForwardingLogger.CopyLogDataH, List.lookup]
  refine ⟨?_, ?_, ?_, rfl⟩
  · rw [hcopy]
  · rw [hcopy]
    simp [List.lookup]
  · rw [hcopy]
    exact free_fresh_cons ((a, ⟨lvl, comp, some s⟩) :: t) ⟨lvl, comp, some s⟩

end HdfsLogging
